import Mathlib

/-!
Verification development for the configuration export/import tool
(`conf/bin/x-ops.py`): a shallow embedding of `ConfigExporter`,
`ConfigImporter` and the surrounding `main` driver, with theorems
settling the specification's claims about the graph codec, the
dependency-ordered importer, its resolver index, its report, and its
transaction / dry-run behaviour.

Conventions of the embedding:
- Django model instances become Lean structures; the store-assigned
  primary key (`pk` / `id`) is a `Nat` handed out by a `nextId` counter.
- The relational store becomes a `Store` structure of lists, one per
  model, queried by executable `find?` predicates (mirroring
  `Model.objects.filter(...).exists() / .get(...) / .first()`).
- Python dicts used as resolver indices (`email_to_user`,
  `slug_to_org`, `slug_to_project`) become association lists with
  overwrite-on-insert semantics.
- JSON documents read by the importer become structures whose `Option`
  fields model `dict.get(key)` / key presence; fields accessed with
  `rec[key]` (a `KeyError` otherwise) are plain fields.
- Fallible encoding in the exporter (attribute access through a broken
  relation, e.g. `project.organization.slug`) returns `Except String`.
- Free-form JSON blob fields of the source models (`options`,
  `analytics`, key `data`) are elided: the tool copies them verbatim
  and no claim mentions them. Python floats are outside the embedding;
  no claim involves a float-valued field.
-/

/-- Association-list lookup modelling Python `dict[key]` /
`dict.get(key)`: the value stored under `k`, if any. -/
def dget? (m : List (String × α)) (k : String) : Option α :=
  (m.find? (fun e => e.1 == k)).map (·.2)

/-- Membership test modelling Python `key in dict`. -/
def dmem (m : List (String × α)) (k : String) : Bool :=
  (dget? m k).isSome

/-- Insertion modelling Python `dict[key] = value` (overwrite). -/
def dinsert (m : List (String × α)) (k : String) (v : α) :
    List (String × α) :=
  (k, v) :: m.filter (fun e => !(e.1 == k))

/-- Python `str(x)` on an `Optional[str]`: `None` prints as `"None"`. -/
def pyShowOpt : Option String → String
  | some s => s
  | none => "None"

/-! ## The field codec (`ConfigExporter.serialize_model`)

`serialize_model` walks `model_instance._meta.fields` and converts each
field value by an `isinstance` chain.  `FieldValue` is the universe of
Django field values that chain distinguishes; `PValue` is the universe
of portable JSON primitives it produces. -/

/-- A Django model field value as discriminated by the `isinstance`
chain of `serialize_model` (x-ops.py lines 79-94). `fvRelated pk` is a
foreign-key target object, of which the code reads `value.pk`. -/
inductive FieldValue
  | fvNone
  | fvBool (b : Bool)
  | fvInt (i : Int)
  | fvStr (s : String)
  | fvDecimal (digits : String)
  | fvDatetime (iso : String)
  | fvUUID (hex : String)
  | fvRelated (pk : Nat)
  | fvJSON (entries : List (String × String))
  | fvOther (strRepr : String)
  deriving DecidableEq

/-- A portable JSON primitive as emitted by `serialize_model`. -/
inductive PValue
  | pNull
  | pBool (b : Bool)
  | pInt (i : Int)
  | pStr (s : String)
  | pDict (entries : List (String × String))
  | pStrList (l : List String)
  deriving DecidableEq

/-- One branch of `serialize_model`'s `isinstance` chain, in source
order: `None`, scalar passthrough, `Decimal → str`, `datetime →
isoformat`, `UUID → str`, `hasattr(value, 'pk') → value.pk`,
`dict` passthrough, fallback `str(value)`. -/
def serializeField : FieldValue → PValue
  | .fvNone => .pNull
  | .fvBool b => .pBool b
  | .fvInt i => .pInt i
  | .fvStr s => .pStr s
  | .fvDecimal digits => .pStr digits
  | .fvDatetime iso => .pStr iso
  | .fvUUID hex => .pStr hex
  | .fvRelated pk => .pInt (Int.ofNat pk)
  | .fvJSON entries => .pDict entries
  | .fvOther strRepr => .pStr strRepr

/-- `ConfigExporter.serialize_model`: serialize the declared fields of a
model instance (given as `(field name, value)` pairs), skipping
`exclude_fields`. -/
def serialize_model (fields : List (String × FieldValue))
    (exclude_fields : List String) : List (String × PValue) :=
  (fields.filter (fun f => ¬ exclude_fields.contains f.1)).map
    (fun f => (f.1, serializeField f.2))

/-! ## The relational store

One structure per Django model, holding the fields this tool reads or
writes.  `id` models the store-assigned primary key. -/

structure StoredUser where
  id : Nat
  email : String
  name : String
  isStaff : Bool
  isSuperuser : Bool
  isActive : Bool
  password : String
  deriving DecidableEq

structure StoredOrg where
  id : Nat
  slug : String
  name : String
  isAcceptingEvents : Bool
  eventThrottleRate : Int
  openMembership : Bool
  scrubIpAddresses : Bool
  deriving DecidableEq

/-- `OrganizationUser`: `user` is nullable (invited members), which the
exporter handles explicitly (`org_user.user.email if org_user.user else
org_user.email`). -/
structure StoredOrgUser where
  id : Nat
  userId : Option Nat
  orgId : Nat
  role : Int
  email : String
  deriving DecidableEq

structure StoredOwner where
  id : Nat
  orgId : Nat
  orgUserId : Nat
  deriving DecidableEq

structure StoredProject where
  id : Nat
  orgId : Nat
  slug : String
  name : String
  platform : String
  scrubIpAddresses : Bool
  eventThrottleRate : Int
  deriving DecidableEq

structure StoredProjectKey where
  id : Nat
  projectId : Nat
  publicKey : Option String
  name : String
  isActive : Bool
  rateLimitCount : Option Int
  rateLimitWindow : Option Int
  deriving DecidableEq

structure StoredCounter where
  id : Nat
  projectId : Nat
  value : Int
  deriving DecidableEq

/-- `Team`: `memberIds` are `OrganizationUser` ids (the m2m through
`members`), `projectIds` are `Project` ids. -/
structure StoredTeam where
  id : Nat
  orgId : Nat
  slug : String
  memberIds : List Nat
  projectIds : List Nat
  deriving DecidableEq

structure StoredAlert where
  id : Nat
  projectId : Nat
  name : String
  timespanMinutes : Option Int
  quantity : Option Int
  uptime : Bool
  deriving DecidableEq

structure StoredRecipient where
  id : Nat
  alertId : Nat
  recipientType : Int
  url : String
  deriving DecidableEq

structure StoredEnv where
  id : Nat
  orgId : Nat
  name : String
  deriving DecidableEq

structure StoredEnvProject where
  id : Nat
  projectId : Nat
  envId : Nat
  isHidden : Bool
  deriving DecidableEq

structure StoredToken where
  id : Nat
  userId : Nat
  token : String
  label : String
  scopes : List String
  deriving DecidableEq

structure StoredUserProjectAlert where
  id : Nat
  userId : Nat
  projectId : Nat
  level : Int
  deriving DecidableEq

/-- The target/source relational store. -/
structure Store where
  users : List StoredUser
  orgs : List StoredOrg
  orgUsers : List StoredOrgUser
  owners : List StoredOwner
  projects : List StoredProject
  projectKeys : List StoredProjectKey
  counters : List StoredCounter
  teams : List StoredTeam
  alerts : List StoredAlert
  recipients : List StoredRecipient
  envs : List StoredEnv
  envProjects : List StoredEnvProject
  tokens : List StoredToken
  upas : List StoredUserProjectAlert
  nextId : Nat
  deriving DecidableEq

def emptyStore : Store :=
  ⟨[], [], [], [], [], [], [], [], [], [], [], [], [], [], 1⟩

def findUserById (s : Store) (i : Nat) : Option StoredUser :=
  s.users.find? (fun u => u.id == i)

def findOrgById (s : Store) (i : Nat) : Option StoredOrg :=
  s.orgs.find? (fun o => o.id == i)

def findProjectById (s : Store) (i : Nat) : Option StoredProject :=
  s.projects.find? (fun p => p.id == i)

/-! ## The exporter (`ConfigExporter`)

Each `export_*` method walks one model's rows, serializes each via
`serialize_model` and attaches the extra natural-key / derived fields
the source sets on the record dict.  Attribute access through a broken
relation (`project.organization.slug`, `token.user.email`, ...) raises
in Python; here it is an `Except.error`.  `export_all` runs the
sections in source order inside one `try`, so the first raised error
aborts the whole export (the caught exception makes it return `False`).
-/

/-- One exported record: the dict assembled for a single entity. -/
def Rec' : Type := List (String × PValue)

/-- The assembled `data` section: entity-type key → list of records. -/
def ExportData : Type := List (String × List Rec')

def optIntFV : Option Int → FieldValue
  | none => .fvNone
  | some i => .fvInt i

def userFields (u : StoredUser) : List (String × FieldValue) :=
  [("id", .fvInt u.id), ("email", .fvStr u.email), ("name", .fvStr u.name),
   ("is_staff", .fvBool u.isStaff), ("is_superuser", .fvBool u.isSuperuser),
   ("is_active", .fvBool u.isActive), ("password", .fvStr u.password)]

def orgFields (o : StoredOrg) : List (String × FieldValue) :=
  [("id", .fvInt o.id), ("name", .fvStr o.name), ("slug", .fvStr o.slug),
   ("is_accepting_events", .fvBool o.isAcceptingEvents),
   ("event_throttle_rate", .fvInt o.eventThrottleRate),
   ("open_membership", .fvBool o.openMembership),
   ("scrub_ip_addresses", .fvBool o.scrubIpAddresses)]

def orgUserFields (ou : StoredOrgUser) : List (String × FieldValue) :=
  [("id", .fvInt ou.id),
   ("user", match ou.userId with | some uid => .fvRelated uid | none => .fvNone),
   ("organization", .fvRelated ou.orgId),
   ("role", .fvInt ou.role), ("email", .fvStr ou.email)]

def ownerFields (w : StoredOwner) : List (String × FieldValue) :=
  [("id", .fvInt w.id), ("organization", .fvRelated w.orgId),
   ("organization_user", .fvRelated w.orgUserId)]

def projectFields (p : StoredProject) : List (String × FieldValue) :=
  [("id", .fvInt p.id), ("organization", .fvRelated p.orgId),
   ("slug", .fvStr p.slug), ("name", .fvStr p.name),
   ("platform", .fvStr p.platform),
   ("scrub_ip_addresses", .fvBool p.scrubIpAddresses),
   ("event_throttle_rate", .fvInt p.eventThrottleRate)]

def keyFields (k : StoredProjectKey) : List (String × FieldValue) :=
  [("id", .fvInt k.id), ("project", .fvRelated k.projectId),
   ("public_key", match k.publicKey with | some pk => .fvUUID pk | none => .fvNone),
   ("name", .fvStr k.name), ("is_active", .fvBool k.isActive),
   ("rate_limit_count", optIntFV k.rateLimitCount),
   ("rate_limit_window", optIntFV k.rateLimitWindow)]

def counterFields (c : StoredCounter) : List (String × FieldValue) :=
  [("id", .fvInt c.id), ("project", .fvRelated c.projectId),
   ("value", .fvInt c.value)]

def teamFields (t : StoredTeam) : List (String × FieldValue) :=
  [("id", .fvInt t.id), ("organization", .fvRelated t.orgId),
   ("slug", .fvStr t.slug)]

def alertFields (a : StoredAlert) : List (String × FieldValue) :=
  [("id", .fvInt a.id), ("project", .fvRelated a.projectId),
   ("name", .fvStr a.name),
   ("timespan_minutes", optIntFV a.timespanMinutes),
   ("quantity", optIntFV a.quantity), ("uptime", .fvBool a.uptime)]

def recipientFields (r : StoredRecipient) : List (String × FieldValue) :=
  [("id", .fvInt r.id), ("alert", .fvRelated r.alertId),
   ("recipient_type", .fvInt r.recipientType), ("url", .fvStr r.url)]

def envFields (e : StoredEnv) : List (String × FieldValue) :=
  [("id", .fvInt e.id), ("organization", .fvRelated e.orgId),
   ("name", .fvStr e.name)]

def envProjFields (ep : StoredEnvProject) : List (String × FieldValue) :=
  [("id", .fvInt ep.id), ("project", .fvRelated ep.projectId),
   ("environment", .fvRelated ep.envId), ("is_hidden", .fvBool ep.isHidden)]

def tokenFields (tk : StoredToken) : List (String × FieldValue) :=
  [("id", .fvInt tk.id), ("user", .fvRelated tk.userId),
   ("token", .fvStr tk.token), ("label", .fvStr tk.label)]

def upaFields (a : StoredUserProjectAlert) : List (String × FieldValue) :=
  [("id", .fvInt a.id), ("user", .fvRelated a.userId),
   ("project", .fvRelated a.projectId), ("level", .fvInt a.level)]

/-- Fail-fast traversal: encode every element left to right, the first
raised error aborting the whole loop (the shape of each `for` loop in
the exporter under `export_all`'s `try`). -/
def encodeEach (f : α → Except String β) : List α → Except String (List β)
  | [] => .ok []
  | x :: xs =>
    match f x with
    | .error e => .error e
    | .ok y =>
      match encodeEach f xs with
      | .error e => .error e
      | .ok ys => .ok (y :: ys)

/-- `export_users`: serialize every user excluding `password`, then
attach `password_hash` (the hash is copied verbatim). -/
def export_users (s : Store) : List Rec' :=
  s.users.map (fun u =>
    serialize_model (userFields u) ["password"] ++
      [("password_hash", .pStr u.password)])

/-- `org.organization_users.all()`. -/
def orgUsersOf (s : Store) (o : StoredOrg) : List StoredOrgUser :=
  s.orgUsers.filter (fun ou => ou.orgId == o.id)

/-- One membership record: `serialize_model(org_user)` plus
`user_email = org_user.user.email if org_user.user else org_user.email`;
a dangling `user` relation raises. -/
def encodeOrgUser (s : Store) (ou : StoredOrgUser) : Except String Rec' :=
  match ou.userId with
  | some uid =>
    match findUserById s uid with
    | some u => .ok (serialize_model (orgUserFields ou) [] ++
        [("user_email", .pStr u.email)])
    | none => .error "RelatedObjectDoesNotExist: OrganizationUser.user"
  | none => .ok (serialize_model (orgUserFields ou) [] ++
      [("user_email", .pStr ou.email)])

/-- One organization with its memberships and (optional) owner row. -/
def encodeOrgGroup (s : Store) (o : StoredOrg) :
    Except String (Rec' × List Rec' × List Rec') :=
  (encodeEach (encodeOrgUser s) (orgUsersOf s o)).bind (fun ous =>
    let ownerRecs :=
      match s.owners.find? (fun w => w.orgId == o.id) with
      | some w => [serialize_model (ownerFields w) []]
      | none => []
    .ok (serialize_model (orgFields o) [], ous, ownerRecs))

/-- `export_organizations`: organizations, membership rows and owner
rows in one pass over `Organization.objects.all()`. -/
def export_organizations (s : Store) :
    Except String (List Rec' × List Rec' × List Rec') :=
  (encodeEach (encodeOrgGroup s) s.orgs).bind (fun groups =>
    .ok (groups.map (·.1), (groups.map (·.2.1)).flatten,
         (groups.map (·.2.2)).flatten))

/-- `ProjectKey.get_dsn()`: external; modelled as a pure function of
the key's fields. -/
def mkDsn (k : StoredProjectKey) : String :=
  "https://" ++ pyShowOpt k.publicKey ++ "@glitchtip/" ++ toString k.projectId

/-- One project with its keys and counter; `project.organization.slug`
raises on a dangling relation. -/
def encodeProjectGroup (s : Store) (p : StoredProject) :
    Except String (Rec' × List Rec' × List Rec') :=
  match findOrgById s p.orgId with
  | none => .error "RelatedObjectDoesNotExist: Project.organization"
  | some o =>
    let pd := serialize_model (projectFields p) [] ++
      [("organization_slug", .pStr o.slug)]
    let keyRecs := (s.projectKeys.filter (fun k => k.projectId == p.id)).map
      (fun k => serialize_model (keyFields k) [] ++
        [("current_dsn", .pStr (mkDsn k))])
    let counterRecs :=
      match (s.counters.filter (fun c => c.projectId == p.id)).head? with
      | some c => [serialize_model (counterFields c) []]
      | none => []
    .ok (pd, keyRecs, counterRecs)

/-- `export_projects`: projects, project keys and project counters. -/
def export_projects (s : Store) :
    Except String (List Rec' × List Rec' × List Rec') :=
  (encodeEach (encodeProjectGroup s) s.projects).bind (fun groups =>
    .ok (groups.map (·.1), (groups.map (·.2.1)).flatten,
         (groups.map (·.2.2)).flatten))

/-- The email of one team member:
`org_user.user.email if org_user.user else org_user.email`, raising on
a dangling `user` relation. -/
def encodeMemberEmail (s : Store) (ou : StoredOrgUser) :
    Except String String :=
  match ou.userId with
  | some uid =>
    match findUserById s uid with
    | some u => .ok u.email
    | none => .error "RelatedObjectDoesNotExist: OrganizationUser.user"
  | none => .ok ou.email

/-- One team: `organization_slug`, `member_emails` (through each
member's possibly-dangling `user` relation) and `project_slugs`. -/
def encodeTeam (s : Store) (t : StoredTeam) : Except String Rec' :=
  match findOrgById s t.orgId with
  | none => .error "RelatedObjectDoesNotExist: Team.organization"
  | some o =>
    (encodeEach (encodeMemberEmail s)
        (s.orgUsers.filter (fun ou => t.memberIds.contains ou.id))).bind
      (fun emails =>
        .ok (serialize_model (teamFields t) [] ++
          [("organization_slug", .pStr o.slug),
           ("member_emails", .pStrList emails),
           ("project_slugs", .pStrList
             ((s.projects.filter (fun p => t.projectIds.contains p.id)).map
               (·.slug)))]))

/-- `export_teams`. -/
def export_teams (s : Store) : Except String (List Rec') :=
  encodeEach (encodeTeam s) s.teams

/-- One alert with its recipients; `alert.project.slug` raises on a
dangling relation. -/
def encodeAlertGroup (s : Store) (a : StoredAlert) :
    Except String (Rec' × List Rec') :=
  match findProjectById s a.projectId with
  | none => .error "RelatedObjectDoesNotExist: ProjectAlert.project"
  | some p =>
    .ok (serialize_model (alertFields a) [] ++
          [("project_slug", .pStr p.slug)],
         (s.recipients.filter (fun r => r.alertId == a.id)).map
           (fun r => serialize_model (recipientFields r) []))

/-- `export_alerts`: alert rules and alert recipients. -/
def export_alerts (s : Store) :
    Except String (List Rec' × List Rec') :=
  (encodeEach (encodeAlertGroup s) s.alerts).bind (fun groups =>
    .ok (groups.map (·.1), (groups.map (·.2)).flatten))

/-- One environment-project link: `project_slug` through the link's
possibly-dangling `project` relation, `environment_name` from the
enclosing environment. -/
def encodeEnvProjLink (s : Store) (e : StoredEnv) (ep : StoredEnvProject) :
    Except String Rec' :=
  match findProjectById s ep.projectId with
  | none => .error "RelatedObjectDoesNotExist: EnvironmentProject.project"
  | some p =>
    .ok (serialize_model (envProjFields ep) [] ++
      [("project_slug", .pStr p.slug),
       ("environment_name", .pStr e.name)])

/-- One environment with its project links; `env.organization.slug`
raises on a dangling relation. -/
def encodeEnvGroup (s : Store) (e : StoredEnv) :
    Except String (Rec' × List Rec') :=
  match findOrgById s e.orgId with
  | none => .error "RelatedObjectDoesNotExist: Environment.organization"
  | some o =>
    (encodeEach (encodeEnvProjLink s e)
        (s.envProjects.filter (fun ep => ep.envId == e.id))).bind
      (fun eps =>
        .ok (serialize_model (envFields e) [] ++
              [("organization_slug", .pStr o.slug)], eps))

/-- `export_environments`: environments and environment-project links. -/
def export_environments (s : Store) :
    Except String (List Rec' × List Rec') :=
  (encodeEach (encodeEnvGroup s) s.envs).bind (fun groups =>
    .ok (groups.map (·.1), (groups.map (·.2)).flatten))

/-- One API token: `user_email = token.user.email` (raises on a
dangling relation) and `scopes_list = token.get_scopes()`. -/
def encodeToken (s : Store) (tk : StoredToken) : Except String Rec' :=
  match findUserById s tk.userId with
  | none => .error "RelatedObjectDoesNotExist: APIToken.user"
  | some u =>
    .ok (serialize_model (tokenFields tk) [] ++
      [("user_email", .pStr u.email), ("scopes_list", .pStrList tk.scopes)])

/-- `export_api_tokens`. -/
def export_api_tokens (s : Store) : Except String (List Rec') :=
  encodeEach (encodeToken s) s.tokens

/-- One user-project alert setting: `user_email` and `project_slug`
through possibly-dangling relations. -/
def encodeUpa (s : Store) (a : StoredUserProjectAlert) :
    Except String Rec' :=
  match findUserById s a.userId with
  | none => .error "RelatedObjectDoesNotExist: UserProjectAlert.user"
  | some u =>
    match findProjectById s a.projectId with
    | none => .error "RelatedObjectDoesNotExist: UserProjectAlert.project"
    | some p =>
      .ok (serialize_model (upaFields a) [] ++
        [("user_email", .pStr u.email), ("project_slug", .pStr p.slug)])

/-- `export_user_project_alerts`. -/
def export_user_project_alerts (s : Store) : Except String (List Rec') :=
  encodeEach (encodeUpa s) s.upas

/-- `ConfigExporter.export_all`: run every section in source order
inside one `try`; the first raised error aborts everything (the Python
returns `False`; here the error propagates). -/
def export_all (s : Store) : Except String ExportData :=
  (export_organizations s).bind (fun og =>
  (export_projects s).bind (fun pg =>
  (export_teams s).bind (fun teamRecs =>
  (export_alerts s).bind (fun ag =>
  (export_environments s).bind (fun eg =>
  (export_api_tokens s).bind (fun tokenRecs =>
  (export_user_project_alerts s).bind (fun upaRecs =>
    Except.ok
      [("users", export_users s),
       ("organizations", og.1),
       ("organization_users", og.2.1),
       ("organization_owners", og.2.2),
       ("projects", pg.1),
       ("project_keys", pg.2.1),
       ("project_counters", pg.2.2),
       ("teams", teamRecs),
       ("project_alerts", ag.1),
       ("alert_recipients", ag.2),
       ("environments", eg.1),
       ("environment_projects", eg.2),
       ("api_tokens", tokenRecs),
       ("user_project_alerts", upaRecs)])))))))

/-- The export half of `main`: only when `export_all()` succeeds is the
assembled document written (to `--output` or standard output); on
failure nothing is emitted and the process exits 1. -/
def mainExport (s : Store) : Option ExportData :=
  match export_all s with
  | .ok d => some d
  | .error _ => none

/-- `ou.user` relation is dangling: encoding this membership raises. -/
def brokenOrgUser (s : Store) (ou : StoredOrgUser) : Bool :=
  match ou.userId with
  | some uid => (findUserById s uid).isNone
  | none => false

/-- Some record in the store fails to encode: the disjunction of every
failure point of the exporter (each a dangling relation reached by an
attribute chain in an `export_*` method). -/
def someEncodeFailsB (s : Store) : Bool :=
  (s.orgs.any (fun o => (orgUsersOf s o).any (brokenOrgUser s))) ||
  (s.projects.any (fun p => (findOrgById s p.orgId).isNone)) ||
  (s.teams.any (fun t => (findOrgById s t.orgId).isNone ||
     (s.orgUsers.filter (fun ou => t.memberIds.contains ou.id)).any
       (brokenOrgUser s))) ||
  (s.alerts.any (fun a => (findProjectById s a.projectId).isNone)) ||
  (s.envs.any (fun e => (findOrgById s e.orgId).isNone ||
     (s.envProjects.filter (fun ep => ep.envId == e.id)).any
       (fun ep => (findProjectById s ep.projectId).isNone))) ||
  (s.tokens.any (fun tk => (findUserById s tk.userId).isNone)) ||
  (s.upas.any (fun a => (findUserById s a.userId).isNone ||
     (findProjectById s a.projectId).isNone))

/-! ## The importer (`ConfigImporter`)

The input document: `Option` fields model optional dict keys
(`rec.get(k)` / `rec.pop(k, d)` / `'k' in data`); plain fields are the
ones read with `rec[k]` (whose absence would be a `KeyError`). -/

structure UserRec where
  email : String
  password_hash : Option String
  name : Option String
  is_staff : Option Bool
  is_superuser : Option Bool
  is_active : Option Bool
  deriving DecidableEq

structure OrgRec where
  slug : String
  name : String
  is_accepting_events : Option Bool
  event_throttle_rate : Option Int
  open_membership : Option Bool
  scrub_ip_addresses : Option Bool
  deriving DecidableEq

/-- A membership record: the importer reads `user_email` (popped,
default `''`), `organization_id` (a `.get`, expected to hold the slug),
`role` and `email`. -/
structure OrgUserRec where
  user_email : Option String
  organization_id : Option String
  role : Option Int
  email : Option String
  deriving DecidableEq

structure OwnerRec where
  organization_id : Option String
  deriving DecidableEq

structure ProjectRec where
  name : String
  slug : String
  organization_slug : Option String
  platform : Option String
  scrub_ip_addresses : Option Bool
  event_throttle_rate : Option Int
  deriving DecidableEq

structure KeyRec where
  project_id : Option String
  public_key : Option String
  name : Option String
  is_active : Option Bool
  rate_limit_count : Option Int
  rate_limit_window : Option Int
  deriving DecidableEq

structure CounterRec where
  project_id : Option String
  value : Option Int
  deriving DecidableEq

structure TeamRec where
  slug : String
  organization_slug : Option String
  member_emails : Option (List String)
  project_slugs : Option (List String)
  deriving DecidableEq

structure AlertRec where
  project_slug : Option String
  name : Option String
  timespan_minutes : Option Int
  quantity : Option Int
  uptime : Option Bool
  deriving DecidableEq

/-- Alert-recipient import is a `pass`; the record's content is never
read. -/
structure RecipientRec where
  payload : List (String × String)
  deriving DecidableEq

structure EnvRec where
  name : String
  organization_slug : Option String
  deriving DecidableEq

structure EnvProjRec where
  project_slug : Option String
  environment_name : Option String
  is_hidden : Option Bool
  deriving DecidableEq

structure TokenRec where
  user_email : Option String
  token : Option String
  label : Option String
  scopes_list : Option (List String)
  deriving DecidableEq

/-- The `data` section; each `Option` models presence of that key in
the JSON dict. -/
structure DataSec where
  users : Option (List UserRec)
  organizations : Option (List OrgRec)
  organization_users : Option (List OrgUserRec)
  organization_owners : Option (List OwnerRec)
  projects : Option (List ProjectRec)
  project_keys : Option (List KeyRec)
  project_counters : Option (List CounterRec)
  teams : Option (List TeamRec)
  environments : Option (List EnvRec)
  environment_projects : Option (List EnvProjRec)
  project_alerts : Option (List AlertRec)
  alert_recipients : Option (List RecipientRec)
  api_tokens : Option (List TokenRec)
  deriving DecidableEq

/-- A `data` section with every key absent (`{}`). -/
def emptyData : DataSec :=
  ⟨none, none, none, none, none, none, none, none, none, none, none,
   none, none⟩

structure Metadata where
  version : Option String
  export_time : Option String
  deriving DecidableEq

/-- The whole parsed JSON input of `import`: `metadata` and `data`,
either possibly absent. -/
structure ImportInput where
  metadata : Option Metadata
  data : Option DataSec
  deriving DecidableEq

/-- A resolver handle for a project: the Python code stores the live
`Project` object in `slug_to_project`; the importer later reads its
primary key (as a foreign key) and its `organization` (in
`import_environments`), so the handle carries both. -/
structure ProjHandle where
  id : Nat
  orgId : Nat
  deriving DecidableEq

/-- `self.import_stats`: one counter per entity type plus one error
list, exactly the keys initialized in `ConfigImporter.__init__`. -/
structure Stats where
  users : Nat
  organizations : Nat
  projects : Nat
  teams : Nat
  alerts : Nat
  environments : Nat
  api_tokens : Nat
  errors : List String
  deriving DecidableEq

def emptyStats : Stats := ⟨0, 0, 0, 0, 0, 0, 0, []⟩

/-- The importer's running state: the target store, the stats dict, the
three resolver indices and the `dry_run` flag. -/
structure ImpState where
  store : Store
  stats : Stats
  emailToUser : List (String × Nat)
  slugToOrg : List (String × Nat)
  slugToProject : List (String × ProjHandle)
  dryRun : Bool
  deriving DecidableEq

/-- `ConfigImporter(dry_run=...)` against a given target store. -/
def mkImporter (dryRun : Bool) (s : Store) : ImpState :=
  ⟨s, emptyStats, [], [], [], dryRun⟩

/-- `log_error`: append `"ERROR: " + message` to
`import_stats['errors']`. -/
def logError (st : ImpState) (msg : String) : ImpState :=
  { st with stats :=
      { st.stats with errors := st.stats.errors ++ ["ERROR: " ++ msg] } }

/-- `OrganizationUserRole.MEMBER`, the default `role`. -/
def memberRole : Int := 0

/-! Store creation helpers (`Model.objects.create`): append the new row
and hand out the next primary key. -/

def createUser (s : Store) (email name : String)
    (isStaff isSuperuser isActive : Bool) (password : String) :
    Store × Nat :=
  let row : StoredUser :=
    ⟨s.nextId, email, name, isStaff, isSuperuser, isActive, password⟩
  ({ s with users := s.users ++ [row], nextId := s.nextId + 1 }, s.nextId)

def createOrg (s : Store) (slug name : String) (acc : Bool) (thr : Int)
    (openM scrub : Bool) : Store × Nat :=
  let row : StoredOrg := ⟨s.nextId, slug, name, acc, thr, openM, scrub⟩
  ({ s with orgs := s.orgs ++ [row], nextId := s.nextId + 1 }, s.nextId)

def createOrgUser (s : Store) (userId : Nat) (orgId : Nat) (role : Int)
    (email : String) : Store × Nat :=
  let row : StoredOrgUser := ⟨s.nextId, some userId, orgId, role, email⟩
  ({ s with orgUsers := s.orgUsers ++ [row], nextId := s.nextId + 1 },
   s.nextId)

def createProject (s : Store) (orgId : Nat) (slug name platform : String)
    (scrub : Bool) (thr : Int) : Store × Nat :=
  let row : StoredProject :=
    ⟨s.nextId, orgId, slug, name, platform, scrub, thr⟩
  ({ s with projects := s.projects ++ [row], nextId := s.nextId + 1 },
   s.nextId)

def createProjectKey (s : Store) (projectId : Nat)
    (publicKey : Option String) (name : String) (isActive : Bool)
    (rlc rlw : Option Int) : Store × Nat :=
  let row : StoredProjectKey :=
    ⟨s.nextId, projectId, publicKey, name, isActive, rlc, rlw⟩
  ({ s with projectKeys := s.projectKeys ++ [row],
            nextId := s.nextId + 1 }, s.nextId)

def createCounter (s : Store) (projectId : Nat) (value : Int) :
    Store × Nat :=
  let row : StoredCounter := ⟨s.nextId, projectId, value⟩
  ({ s with counters := s.counters ++ [row], nextId := s.nextId + 1 },
   s.nextId)

def createTeam (s : Store) (orgId : Nat) (slug : String) : Store × Nat :=
  let row : StoredTeam := ⟨s.nextId, orgId, slug, [], []⟩
  ({ s with teams := s.teams ++ [row], nextId := s.nextId + 1 }, s.nextId)

def createAlert (s : Store) (projectId : Nat) (name : String)
    (tsm qty : Option Int) (uptime : Bool) : Store × Nat :=
  let row : StoredAlert := ⟨s.nextId, projectId, name, tsm, qty, uptime⟩
  ({ s with alerts := s.alerts ++ [row], nextId := s.nextId + 1 }, s.nextId)

def createEnv (s : Store) (orgId : Nat) (name : String) : Store × Nat :=
  let row : StoredEnv := ⟨s.nextId, orgId, name⟩
  ({ s with envs := s.envs ++ [row], nextId := s.nextId + 1 }, s.nextId)

def createEnvProject (s : Store) (projectId envId : Nat)
    (isHidden : Bool) : Store × Nat :=
  let row : StoredEnvProject := ⟨s.nextId, projectId, envId, isHidden⟩
  ({ s with envProjects := s.envProjects ++ [row],
            nextId := s.nextId + 1 }, s.nextId)

/-- `APIToken.objects.create(...)` followed by
`add_permissions(scopes_list)` when the list is non-empty. -/
def createToken (s : Store) (userId : Nat) (token label : String)
    (scopes : List String) : Store × Nat :=
  let row : StoredToken := ⟨s.nextId, userId, token, label, scopes⟩
  ({ s with tokens := s.tokens ++ [row], nextId := s.nextId + 1 },
   s.nextId)

/-- Django m2m `add`: a no-op when already related. -/
def addUnique (l : List Nat) (x : Nat) : List Nat :=
  if l.contains x then l else l ++ [x]

/-- `team.members.add(org_user)`. -/
def addTeamMember (s : Store) (teamId ouId : Nat) : Store :=
  { s with teams := s.teams.map (fun t =>
      if t.id == teamId then { t with memberIds := addUnique t.memberIds ouId }
      else t) }

/-- `team.projects.add(project)`. -/
def addTeamProject (s : Store) (teamId pid : Nat) : Store :=
  { s with teams := s.teams.map (fun t =>
      if t.id == teamId then { t with projectIds := addUnique t.projectIds pid }
      else t) }

/-! Per-entity-type stat increments (`self.import_stats[k] += 1`). -/

def incUsers (st : ImpState) : ImpState :=
  { st with stats := { st.stats with users := st.stats.users + 1 } }

def incOrgs (st : ImpState) : ImpState :=
  { st with stats :=
      { st.stats with organizations := st.stats.organizations + 1 } }

def incProjects (st : ImpState) : ImpState :=
  { st with stats := { st.stats with projects := st.stats.projects + 1 } }

def incTeams (st : ImpState) : ImpState :=
  { st with stats := { st.stats with teams := st.stats.teams + 1 } }

def incAlerts (st : ImpState) : ImpState :=
  { st with stats := { st.stats with alerts := st.stats.alerts + 1 } }

def incEnvs (st : ImpState) : ImpState :=
  { st with stats :=
      { st.stats with environments := st.stats.environments + 1 } }

def incTokens (st : ImpState) : ImpState :=
  { st with stats := { st.stats with api_tokens := st.stats.api_tokens + 1 } }

/-- One iteration of the `import_users` loop (x-ops.py 321-355).  Only
outside dry-run is the store queried/mutated and the resolver updated;
in dry-run `user` stays `None`, so `email_to_user` is left untouched.
The count is incremented on every non-raising path. -/
def importOneUser (st : ImpState) (u : UserRec) : ImpState :=
  let email := u.email
  let passwordHash := u.password_hash.getD ""
  if ¬ st.dryRun then
    match st.store.users.find? (fun x => x.email == email) with
    | some existing =>
      incUsers
        { st with emailToUser := dinsert st.emailToUser email existing.id }
    | none =>
      let created := createUser st.store email (u.name.getD "")
        (u.is_staff.getD false) (u.is_superuser.getD false)
        (u.is_active.getD true) passwordHash
      incUsers
        { st with
          store := created.1,
          emailToUser := dinsert st.emailToUser email created.2 }
  else
    incUsers st

/-- `ConfigImporter.import_users`. -/
def import_users (data : List UserRec) (st : ImpState) : ImpState :=
  data.foldl importOneUser st

/-- One iteration of the organization loop of `import_organizations`
(x-ops.py 362-392); same dry-run shape as users. -/
def importOneOrg (st : ImpState) (o : OrgRec) : ImpState :=
  let slug := o.slug
  let name := o.name
  if ¬ st.dryRun then
    match st.store.orgs.find? (fun x => x.slug == slug) with
    | some existing =>
      incOrgs { st with slugToOrg := dinsert st.slugToOrg slug existing.id }
    | none =>
      let created := createOrg st.store slug name
        (o.is_accepting_events.getD true) (o.event_throttle_rate.getD 0)
        (o.open_membership.getD true) (o.scrub_ip_addresses.getD true)
      incOrgs
        { st with
          store := created.1,
          slugToOrg := dinsert st.slugToOrg slug created.2 }
  else
    incOrgs st

/-- One iteration of the membership loop of `import_organizations`
(x-ops.py 395-428): resolve the organization slug (read from the
record's `organization_id` key) and the user email through the resolver
indices; either failing is a logged, per-record error.  No stats
counter exists for memberships. -/
def importOneOrgUser (st : ImpState) (r : OrgUserRec) : ImpState :=
  let userEmail := r.user_email.getD ""
  let orgSlug := r.organization_id
  let orgKnown : Bool := match orgSlug with
    | some sl => dmem st.slugToOrg sl
    | none => false
  if !orgKnown then
    logError st ("组织不存在: " ++ pyShowOpt orgSlug)
  else if ¬ dmem st.emailToUser userEmail then
    logError st ("用户不存在: " ++ userEmail)
  else if ¬ st.dryRun then
    let orgId := (dget? st.slugToOrg (orgSlug.getD "")).getD 0
    let userId := (dget? st.emailToUser userEmail).getD 0
    match st.store.orgUsers.find?
        (fun x => x.userId == some userId && x.orgId == orgId) with
    | some _ => st
    | none =>
      let created := createOrgUser st.store userId orgId
        (r.role.getD memberRole) (r.email.getD "")
      { st with store := created.1 }
  else st

/-- `ConfigImporter.import_organizations`: organizations first, then
memberships.  `org_owners_data` is accepted but never used (the
owner-import placeholder). -/
def import_organizations (orgs : List OrgRec) (orgUsers : List OrgUserRec)
    (owners : List OwnerRec) (st : ImpState) : ImpState :=
  let st1 := orgs.foldl importOneOrg st
  let st2 := orgUsers.foldl importOneOrgUser st1
  owners.foldl (fun s _ => s) st2

/-- One iteration of the project loop of `import_projects` (x-ops.py
435-469).  Outside dry-run the project is found-or-created, registered
in `slug_to_project` under its bare slug, and counted.  In dry-run,
when the organization resolves, line 465
(`self.slug_to_project[slug] = project`) reads the never-assigned local
`project`, so the record fails with a caught `NameError` (this path is
unreachable in a real dry-run, where `slug_to_org` is always empty). -/
def importOneProject (st : ImpState) (r : ProjectRec) : ImpState :=
  let name := r.name
  let slug := r.slug
  let orgSlug := r.organization_slug.getD ""
  match dget? st.slugToOrg orgSlug with
  | none =>
    logError st ("项目 " ++ slug ++ " 的组织 " ++ orgSlug ++ " 不存在")
  | some orgId =>
    if ¬ st.dryRun then
      let found := st.store.projects.find?
        (fun p => p.slug == slug && p.orgId == orgId)
      let created := match found with
        | some p => (st.store, p.id)
        | none => createProject st.store orgId slug name
            (r.platform.getD "") (r.scrub_ip_addresses.getD true)
            (r.event_throttle_rate.getD 0)
      incProjects
        { st with
          store := created.1,
          slugToProject := dinsert st.slugToProject slug ⟨created.2, orgId⟩ }
    else
      logError st ("导入项目失败 " ++ slug ++ ": name 'project' is not defined")

/-- One iteration of the key loop of `import_projects` (x-ops.py
472-502): the project is resolved from `slug_to_project` by the
record's `project_id` key; keys are deduplicated by `public_key`. -/
def importOneKey (st : ImpState) (r : KeyRec) : ImpState :=
  let projectSlug := r.project_id
  let publicKey := r.public_key
  let handle := match projectSlug with
    | some sl => dget? st.slugToProject sl
    | none => none
  match handle with
  | none =>
    logError st ("项目密钥的项目 " ++ pyShowOpt projectSlug ++ " 不存在")
  | some h =>
    if ¬ st.dryRun then
      match st.store.projectKeys.find? (fun k => k.publicKey == publicKey) with
      | some _ => st
      | none =>
        let created := createProjectKey st.store h.id publicKey
          (r.name.getD "") (r.is_active.getD true)
          r.rate_limit_count r.rate_limit_window
        { st with store := created.1 }
    else st

/-- One iteration of the counter loop of `import_projects` (x-ops.py
505-528): at most one counter per project. -/
def importOneCounter (st : ImpState) (r : CounterRec) : ImpState :=
  let projectSlug := r.project_id
  let handle := match projectSlug with
    | some sl => dget? st.slugToProject sl
    | none => none
  match handle with
  | none =>
    logError st ("项目计数器的项目 " ++ pyShowOpt projectSlug ++ " 不存在")
  | some h =>
    if ¬ st.dryRun then
      match st.store.counters.find? (fun c => c.projectId == h.id) with
      | some _ => st
      | none =>
        { st with store := (createCounter st.store h.id (r.value.getD 1)).1 }
    else st

/-- `ConfigImporter.import_projects`: projects, then keys, then
counters. -/
def import_projects (ps : List ProjectRec) (ks : List KeyRec)
    (cs : List CounterRec) (st : ImpState) : ImpState :=
  let st1 := ps.foldl importOneProject st
  let st2 := ks.foldl importOneKey st1
  cs.foldl importOneCounter st2

/-- One iteration of `import_teams` (x-ops.py 534-578).  An
unresolvable organization slug is a logged error skipping the record.
Member emails and project slugs that do not resolve are silently
skipped: the `if email in self.email_to_user` / `if project_slug in
self.slug_to_project` guards have no `else`, and a member whose
membership row is not found is likewise dropped without a log entry. -/
def importOneTeam (st : ImpState) (r : TeamRec) : ImpState :=
  let slug := r.slug
  let orgSlug := r.organization_slug.getD ""
  let memberEmails := r.member_emails.getD []
  let projectSlugs := r.project_slugs.getD []
  if ¬ dmem st.slugToOrg orgSlug then
    logError st ("团队 " ++ slug ++ " 的组织 " ++ orgSlug ++ " 不存在")
  else if ¬ st.dryRun then
    let orgId := (dget? st.slugToOrg orgSlug).getD 0
    let found := st.store.teams.find?
      (fun t => t.slug == slug && t.orgId == orgId)
    let created := match found with
      | some t => (st.store, t.id)
      | none => createTeam st.store orgId slug
    let teamId := created.2
    let s2 := memberEmails.foldl (fun s email =>
      match dget? st.emailToUser email with
      | some uid =>
        match s.orgUsers.find?
            (fun ou => ou.userId == some uid && ou.orgId == orgId) with
        | some ou => addTeamMember s teamId ou.id
        | none => s
      | none => s) created.1
    let s3 := projectSlugs.foldl (fun s psl =>
      match dget? st.slugToProject psl with
      | some h => addTeamProject s teamId h.id
      | none => s) s2
    incTeams { st with store := s3 }
  else
    incTeams st

/-- `ConfigImporter.import_teams`. -/
def import_teams (ts : List TeamRec) (st : ImpState) : ImpState :=
  ts.foldl importOneTeam st

/-- One iteration of the alert loop of `import_alerts` (x-ops.py
585-609).  Unlike every other entity type there is no existence check:
outside dry-run, `ProjectAlert.objects.create` runs unconditionally. -/
def importOneAlert (st : ImpState) (r : AlertRec) : ImpState :=
  let projectSlug := r.project_slug.getD ""
  match dget? st.slugToProject projectSlug with
  | none =>
    logError st ("告警规则的项目 " ++ projectSlug ++ " 不存在")
  | some h =>
    if ¬ st.dryRun then
      let created := createAlert st.store h.id (r.name.getD "")
        r.timespan_minutes r.quantity (r.uptime.getD false)
      incAlerts { st with store := created.1 }
    else
      incAlerts st

/-- `ConfigImporter.import_alerts`: alert rules, then the recipient
loop, whose body is `pass` (alert-recipient import is a no-op). -/
def import_alerts (als : List AlertRec) (recips : List RecipientRec)
    (st : ImpState) : ImpState :=
  let st1 := als.foldl importOneAlert st
  recips.foldl (fun s _ => s) st1

/-- One iteration of the environment loop of `import_environments`
(x-ops.py 625-653). -/
def importOneEnv (st : ImpState) (r : EnvRec) : ImpState :=
  let name := r.name
  let orgSlug := r.organization_slug.getD ""
  if ¬ dmem st.slugToOrg orgSlug then
    logError st ("环境 " ++ name ++ " 的组织 " ++ orgSlug ++ " 不存在")
  else if ¬ st.dryRun then
    let orgId := (dget? st.slugToOrg orgSlug).getD 0
    match st.store.envs.find? (fun e => e.name == name && e.orgId == orgId) with
    | some _ => incEnvs st
    | none =>
      incEnvs { st with store := (createEnv st.store orgId name).1 }
  else
    incEnvs st

/-- One iteration of the environment-project loop of
`import_environments` (x-ops.py 656-684): project from the resolver,
environment by a store query scoped to the project's organization; the
query runs in both modes. -/
def importOneEnvProj (st : ImpState) (r : EnvProjRec) : ImpState :=
  let projectSlug := r.project_slug.getD ""
  let envName := r.environment_name.getD ""
  match dget? st.slugToProject projectSlug with
  | none =>
    logError st ("环境项目关联的项目 " ++ projectSlug ++ " 不存在")
  | some h =>
    match st.store.envs.find?
        (fun e => e.name == envName && e.orgId == h.orgId) with
    | none => logError st ("环境 " ++ envName ++ " 不存在")
    | some env =>
      if ¬ st.dryRun then
        match st.store.envProjects.find?
            (fun ep => ep.projectId == h.id && ep.envId == env.id) with
        | some _ => st
        | none =>
          { st with store :=
              (createEnvProject st.store h.id env.id (r.is_hidden.getD false)).1 }
      else st

/-- `ConfigImporter.import_environments`. -/
def import_environments (es : List EnvRec) (eps : List EnvProjRec)
    (st : ImpState) : ImpState :=
  let st1 := es.foldl importOneEnv st
  eps.foldl importOneEnvProj st1

/-- One iteration of `import_api_tokens` (x-ops.py 690-723): the user
from the resolver; tokens deduplicated by token string; scopes from
`scopes_list` via `add_permissions`. -/
def importOneToken (st : ImpState) (r : TokenRec) : ImpState :=
  let userEmail := r.user_email.getD ""
  let token := r.token.getD ""
  let label := r.label.getD ""
  let scopesList := r.scopes_list.getD []
  if ¬ dmem st.emailToUser userEmail then
    logError st ("API令牌的用户 " ++ userEmail ++ " 不存在")
  else if ¬ st.dryRun then
    let userId := (dget? st.emailToUser userEmail).getD 0
    match st.store.tokens.find? (fun t => t.token == token) with
    | some _ => incTokens st
    | none =>
      incTokens { st with store :=
        (createToken st.store userId token label scopesList).1 }
  else
    incTokens st

/-- `ConfigImporter.import_api_tokens`. -/
def import_api_tokens (tks : List TokenRec) (st : ImpState) : ImpState :=
  tks.foldl importOneToken st

/-- The body of `import_all`'s `with transaction.atomic():` block
(x-ops.py 728-774): `data = export_data.get('data', {})`, then the
sections in their fixed order, each gated on its key's presence.
Organizations run only when BOTH `organizations` and
`organization_users` are present (line 738). -/
def importBody (doc : ImportInput) (st0 : ImpState) : ImpState :=
  let data := doc.data.getD emptyData
  let st := match data.users with
    | some us => import_users us st0
    | none => st0
  let st := match data.organizations, data.organization_users with
    | some os, some ous =>
        import_organizations os ous (data.organization_owners.getD []) st
    | _, _ => st
  let st := match data.projects with
    | some ps => import_projects ps (data.project_keys.getD [])
        (data.project_counters.getD []) st
    | none => st
  let st := match data.teams with
    | some ts => import_teams ts st
    | none => st
  let st := match data.environments with
    | some es => import_environments es (data.environment_projects.getD []) st
    | none => st
  let st := match data.project_alerts with
    | some als => import_alerts als (data.alert_recipients.getD []) st
    | none => st
  let st := match data.api_tokens with
    | some tks => import_api_tokens tks st
    | none => st
  st

/-- Result of one `import_all` call: final importer state, the returned
success flag, and whether a store transaction was opened during the
call. -/
structure RunResult where
  state : ImpState
  success : Bool
  txOpened : Bool
  deriving DecidableEq

/-- `with transaction.atomic():` — on normal exit of the body, commit;
on an exception escaping the body, the store transaction is rolled
back, leaving the target store as it was (the importer's in-memory
stats and indices are not restored, but no body of this embedding
raises, so the raise-point state needs no model). -/
def runAtomic (body : ImpState → Except String ImpState)
    (st : ImpState) : ImpState × Bool :=
  match body st with
  | .ok st' => (st', true)
  | .error _ => (st, false)

/-- `ConfigImporter.import_all` (x-ops.py 725-778): the atomic block is
entered before the dry-run check, so a transaction is opened in both
modes; an exception escaping the block is caught, logged and turns into
`return False`. -/
def import_all (doc : ImportInput) (st : ImpState) : RunResult :=
  let r := runAtomic (fun s => .ok (importBody doc s)) st
  if r.2 then ⟨r.1, true, true⟩
  else ⟨logError r.1 "导入失败: internal error", false, true⟩

/-- The import half of `main` (x-ops.py 864-874): the only validation
of the parsed input before `import_all` is `'data' in export_data`;
with no `data` key the process exits 1 before any import work. -/
def mainImport (inp : ImportInput) (dryRun : Bool) (s : Store) :
    Option RunResult :=
  match inp.data with
  | none => none
  | some _ => some (import_all inp (mkImporter dryRun s))

/-! ## Helper lemmas -/

theorem dget?_dinsert_self (m : List (String × α)) (k : String) (v : α) :
    dget? (dinsert m k v) k = some v := by
  simp [dget?, dinsert, List.find?]

theorem find?_filter_ne (m : List (String × α)) (k s' : String)
    (h : s' ≠ k) :
    List.find? (fun e => e.1 == s') (m.filter (fun e => !(e.1 == k))) =
    List.find? (fun e => e.1 == s') m := by
  induction m with
  | nil => rfl
  | cons a as ih =>
    by_cases hak : a.1 = k
    · have h1 : (k == s') = false := by
        simp only [beq_eq_false_iff_ne]
        exact Ne.symm h
      simp [List.filter_cons, List.find?_cons, hak, h1, ih]
    · by_cases has : a.1 = s'
      · simp [List.filter_cons, List.find?_cons, hak, has, h]
      · simp [List.filter_cons, List.find?_cons, hak, has, ih]

theorem dget?_dinsert_ne (m : List (String × α)) (k : String) (v : α)
    (s' : String) (h : s' ≠ k) :
    dget? (dinsert m k v) s' = dget? m s' := by
  have h1 : ((k, v).1 == s') = false := by
    simp only [beq_eq_false_iff_ne]
    exact fun hh => h hh.symm
  simp only [dget?, dinsert, List.find?_cons, h1]
  rw [find?_filter_ne m k s' h]

theorem exbind_ok {α β : Type} {r : Except String α}
    {f : α → Except String β} {b : β} (h : r.bind f = Except.ok b) :
    ∃ a, r = Except.ok a ∧ f a = Except.ok b := by
  cases r with
  | error e => simp [Except.bind] at h
  | ok a => exact ⟨a, rfl, by simpa [Except.bind] using h⟩

theorem except_error_of_not_ok {α : Type} {r : Except String α}
    (h : ∀ a, r ≠ Except.ok a) : ∃ e, r = Except.error e := by
  cases r with
  | error e => exact ⟨e, rfl⟩
  | ok a => exact absurd rfl (h a)

theorem encodeEach_not_ok {α β : Type} {f : α → Except String β} {x : α}
    {e : String} (hfx : f x = Except.error e) :
    ∀ {l : List α}, x ∈ l → ∀ ys, encodeEach f l ≠ Except.ok ys := by
  intro l
  induction l with
  | nil => intro hx; cases hx
  | cons a as ih =>
    intro hx ys hok
    unfold encodeEach at hok
    cases hfa : f a with
    | error e2 =>
      simp only [hfa] at hok
      exact Except.noConfusion hok
    | ok y =>
      simp only [hfa] at hok
      rcases List.mem_cons.mp hx with hxa | hxas
      · subst hxa
        rw [hfx] at hfa
        cases hfa
      · cases hrest : encodeEach f as with
        | error e2 =>
          simp only [hrest] at hok
          exact Except.noConfusion hok
        | ok ys2 => exact ih hxas ys2 hrest

/-! ## Fail-closed export: per-section failure lemmas -/

theorem brokenOrgUser_elim {s : Store} {ou : StoredOrgUser}
    (h : brokenOrgUser s ou = true) :
    ∃ uid, ou.userId = some uid ∧ findUserById s uid = none := by
  unfold brokenOrgUser at h
  cases huid : ou.userId with
  | none => rw [huid] at h; cases h
  | some uid =>
    rw [huid] at h
    exact ⟨uid, rfl, by simpa [Option.isNone_iff_eq_none] using h⟩

theorem encodeOrgUser_error {s : Store} {ou : StoredOrgUser}
    (h : brokenOrgUser s ou = true) :
    ∃ e, encodeOrgUser s ou = Except.error e := by
  obtain ⟨uid, huid, hfind⟩ := brokenOrgUser_elim h
  exact ⟨"RelatedObjectDoesNotExist: OrganizationUser.user",
    by simp [encodeOrgUser, huid, hfind]⟩

theorem encodeMemberEmail_error {s : Store} {ou : StoredOrgUser}
    (h : brokenOrgUser s ou = true) :
    ∃ e, encodeMemberEmail s ou = Except.error e := by
  obtain ⟨uid, huid, hfind⟩ := brokenOrgUser_elim h
  exact ⟨"RelatedObjectDoesNotExist: OrganizationUser.user",
    by simp [encodeMemberEmail, huid, hfind]⟩

theorem export_organizations_not_ok {s : Store} {o : StoredOrg}
    {ou : StoredOrgUser} (ho : o ∈ s.orgs) (hou : ou ∈ orgUsersOf s o)
    (hb : brokenOrgUser s ou = true) :
    ∀ x, export_organizations s ≠ Except.ok x := by
  obtain ⟨e, he⟩ := encodeOrgUser_error hb
  obtain ⟨e2, he2⟩ := except_error_of_not_ok (encodeEach_not_ok he hou)
  have hgroup : encodeOrgGroup s o = Except.error e2 := by
    simp [encodeOrgGroup, he2, Except.bind]
  obtain ⟨e3, he3⟩ := except_error_of_not_ok (encodeEach_not_ok hgroup ho)
  intro x hx
  unfold export_organizations at hx
  obtain ⟨g, hg, _⟩ := exbind_ok hx
  rw [he3] at hg
  exact Except.noConfusion hg

theorem export_projects_not_ok {s : Store} {p : StoredProject}
    (hp : p ∈ s.projects) (ho : findOrgById s p.orgId = none) :
    ∀ x, export_projects s ≠ Except.ok x := by
  have hgroup : encodeProjectGroup s p =
      Except.error "RelatedObjectDoesNotExist: Project.organization" := by
    simp [encodeProjectGroup, ho]
  obtain ⟨e3, he3⟩ := except_error_of_not_ok (encodeEach_not_ok hgroup hp)
  intro x hx
  unfold export_projects at hx
  obtain ⟨g, hg, _⟩ := exbind_ok hx
  rw [he3] at hg
  exact Except.noConfusion hg

theorem export_teams_not_ok_org {s : Store} {t : StoredTeam}
    (ht : t ∈ s.teams) (ho : findOrgById s t.orgId = none) :
    ∀ x, export_teams s ≠ Except.ok x := by
  have hteam : encodeTeam s t =
      Except.error "RelatedObjectDoesNotExist: Team.organization" := by
    simp [encodeTeam, ho]
  exact fun x => encodeEach_not_ok hteam ht x

theorem export_teams_not_ok_member {s : Store} {t : StoredTeam}
    {ou : StoredOrgUser} (ht : t ∈ s.teams)
    (hou : ou ∈ s.orgUsers.filter (fun x => t.memberIds.contains x.id))
    (hb : brokenOrgUser s ou = true) :
    ∀ x, export_teams s ≠ Except.ok x := by
  obtain ⟨e, he⟩ := encodeMemberEmail_error hb
  obtain ⟨e2, he2⟩ := except_error_of_not_ok (encodeEach_not_ok he hou)
  have hteam : ∀ y, encodeTeam s t ≠ Except.ok y := by
    intro y hy
    unfold encodeTeam at hy
    cases hfo : findOrgById s t.orgId with
    | none =>
      simp only [hfo] at hy
      exact Except.noConfusion hy
    | some o =>
      simp only [hfo, he2, Except.bind] at hy
      exact Except.noConfusion hy
  obtain ⟨e3, he3⟩ := except_error_of_not_ok hteam
  exact fun x => encodeEach_not_ok he3 ht x

theorem export_alerts_not_ok {s : Store} {a : StoredAlert}
    (ha : a ∈ s.alerts) (hp : findProjectById s a.projectId = none) :
    ∀ x, export_alerts s ≠ Except.ok x := by
  have hgroup : encodeAlertGroup s a =
      Except.error "RelatedObjectDoesNotExist: ProjectAlert.project" := by
    simp [encodeAlertGroup, hp]
  obtain ⟨e3, he3⟩ := except_error_of_not_ok (encodeEach_not_ok hgroup ha)
  intro x hx
  unfold export_alerts at hx
  obtain ⟨g, hg, _⟩ := exbind_ok hx
  rw [he3] at hg
  exact Except.noConfusion hg

theorem export_environments_not_ok_org {s : Store} {e : StoredEnv}
    (he : e ∈ s.envs) (ho : findOrgById s e.orgId = none) :
    ∀ x, export_environments s ≠ Except.ok x := by
  have hgroup : encodeEnvGroup s e =
      Except.error "RelatedObjectDoesNotExist: Environment.organization" := by
    simp [encodeEnvGroup, ho]
  obtain ⟨e3, he3⟩ := except_error_of_not_ok (encodeEach_not_ok hgroup he)
  intro x hx
  unfold export_environments at hx
  obtain ⟨g, hg, _⟩ := exbind_ok hx
  rw [he3] at hg
  exact Except.noConfusion hg

theorem export_environments_not_ok_link {s : Store} {e : StoredEnv}
    {ep : StoredEnvProject} (he : e ∈ s.envs)
    (hep : ep ∈ s.envProjects.filter (fun x => x.envId == e.id))
    (hp : findProjectById s ep.projectId = none) :
    ∀ x, export_environments s ≠ Except.ok x := by
  have hl : encodeEnvProjLink s e ep =
      Except.error "RelatedObjectDoesNotExist: EnvironmentProject.project" := by
    simp [encodeEnvProjLink, hp]
  obtain ⟨e2, he2⟩ := except_error_of_not_ok (encodeEach_not_ok hl hep)
  have hgroup : ∀ y, encodeEnvGroup s e ≠ Except.ok y := by
    intro y hy
    unfold encodeEnvGroup at hy
    cases hfo : findOrgById s e.orgId with
    | none =>
      simp only [hfo] at hy
      exact Except.noConfusion hy
    | some o =>
      simp only [hfo, he2, Except.bind] at hy
      exact Except.noConfusion hy
  obtain ⟨e3, he3⟩ := except_error_of_not_ok hgroup
  intro x hx
  unfold export_environments at hx
  obtain ⟨g, hg, _⟩ := exbind_ok hx
  exact encodeEach_not_ok he3 he g hg

theorem export_api_tokens_not_ok {s : Store} {tk : StoredToken}
    (htk : tk ∈ s.tokens) (hu : findUserById s tk.userId = none) :
    ∀ x, export_api_tokens s ≠ Except.ok x := by
  have h1 : encodeToken s tk =
      Except.error "RelatedObjectDoesNotExist: APIToken.user" := by
    simp [encodeToken, hu]
  exact fun x => encodeEach_not_ok h1 htk x

theorem export_upas_not_ok {s : Store} {a : StoredUserProjectAlert}
    (ha : a ∈ s.upas)
    (h : ((findUserById s a.userId).isNone ||
          (findProjectById s a.projectId).isNone) = true) :
    ∀ x, export_user_project_alerts s ≠ Except.ok x := by
  have h1 : ∃ e, encodeUpa s a = Except.error e := by
    cases hu : findUserById s a.userId with
    | none =>
      exact ⟨"RelatedObjectDoesNotExist: UserProjectAlert.user",
        by simp [encodeUpa, hu]⟩
    | some u =>
      have hp : findProjectById s a.projectId = none := by
        rw [hu] at h
        simpa [Option.isNone_iff_eq_none] using h
      exact ⟨"RelatedObjectDoesNotExist: UserProjectAlert.project",
        by simp [encodeUpa, hu, hp]⟩
  obtain ⟨e, he⟩ := h1
  exact fun x => encodeEach_not_ok he ha x

theorem export_all_ok_sections {s : Store} {d : ExportData}
    (h : export_all s = Except.ok d) :
    (∃ x, export_organizations s = Except.ok x) ∧
    (∃ x, export_projects s = Except.ok x) ∧
    (∃ x, export_teams s = Except.ok x) ∧
    (∃ x, export_alerts s = Except.ok x) ∧
    (∃ x, export_environments s = Except.ok x) ∧
    (∃ x, export_api_tokens s = Except.ok x) ∧
    (∃ x, export_user_project_alerts s = Except.ok x) := by
  unfold export_all at h
  obtain ⟨v1, h1, h⟩ := exbind_ok h
  obtain ⟨v2, h2, h⟩ := exbind_ok h
  obtain ⟨v3, h3, h⟩ := exbind_ok h
  obtain ⟨v4, h4, h⟩ := exbind_ok h
  obtain ⟨v5, h5, h⟩ := exbind_ok h
  obtain ⟨v6, h6, h⟩ := exbind_ok h
  obtain ⟨v7, h7, _⟩ := exbind_ok h
  exact ⟨⟨v1, h1⟩, ⟨v2, h2⟩, ⟨v3, h3⟩, ⟨v4, h4⟩, ⟨v5, h5⟩, ⟨v6, h6⟩,
         ⟨v7, h7⟩⟩

/-- C5: for every source store state, if encoding any single record
fails during export (any failure point of the exporter's attribute
chains fires), then `export_all` fails and `main` emits no snapshot
document at all — neither to a file nor to standard output; a partial
document is never produced. -/
theorem c5_export_fail_closed (s : Store)
    (h : someEncodeFailsB s = true) : mainExport s = none := by
  cases hE : export_all s with
  | error e => simp [mainExport, hE]
  | ok d =>
    exfalso
    obtain ⟨⟨v1, h1⟩, ⟨v2, h2⟩, ⟨v3, h3⟩, ⟨v4, h4⟩, ⟨v5, h5⟩, ⟨v6, h6⟩,
      ⟨v7, h7⟩⟩ := export_all_ok_sections hE
    unfold someEncodeFailsB at h
    simp only [Bool.or_eq_true, List.any_eq_true,
      Option.isNone_iff_eq_none] at h
    rcases h with ((((((hA | hB) | hC) | hD) | hF) | hG) | hH)
    · obtain ⟨o, ho, ou, hou, hb⟩ := hA
      exact export_organizations_not_ok ho hou hb v1 h1
    · obtain ⟨p, hp, hpo⟩ := hB
      exact export_projects_not_ok hp hpo v2 h2
    · obtain ⟨t, ht, hto⟩ := hC
      rcases hto with hto | ⟨ou, hou, hb⟩
      · exact export_teams_not_ok_org ht hto v3 h3
      · exact export_teams_not_ok_member ht hou hb v3 h3
    · obtain ⟨a, ha, hap⟩ := hD
      exact export_alerts_not_ok ha hap v4 h4
    · obtain ⟨ev, hev, hevc⟩ := hF
      rcases hevc with hevc | ⟨ep, hep, hp⟩
      · exact export_environments_not_ok_org hev hevc v5 h5
      · exact export_environments_not_ok_link hev hep hp v5 h5
    · obtain ⟨tk, htk, htku⟩ := hG
      exact export_api_tokens_not_ok htk htku v6 h6
    · obtain ⟨ua, hua, huac⟩ := hH
      have hb : ((findUserById s ua.userId).isNone ||
          (findProjectById s ua.projectId).isNone) = true := by
        rcases huac with h' | h' <;> simp [h']
      exact export_upas_not_ok hua hb v7 h7

/-- A store holding one project whose `organization` relation dangles:
encoding it fails. -/
def brokenProjectStore : Store :=
  { emptyStore with projects := [⟨1, 99, "web", "Web", "", true, 0⟩] }

/-- Witness for C5 at a concrete store: the single project's
organization lookup fails, and no document is emitted. -/
theorem c5_export_fail_closed_witness :
    someEncodeFailsB brokenProjectStore = true ∧
    mainExport brokenProjectStore = none :=
  ⟨rfl, c5_export_fail_closed brokenProjectStore rfl⟩

/-! ## Concrete snapshot documents used by the claim theorems -/

def snapUser : UserRec := ⟨"a@x.com", some "hash", some "A", none, none, none⟩

def snapOrg : OrgRec := ⟨"acme", "Acme", none, none, none, none⟩

def snapMembership : OrgUserRec := ⟨some "a@x.com", some "acme", some 0, some ""⟩

def snapProject : ProjectRec := ⟨"Web", "web", some "acme", none, none, none⟩

/-- A snapshot with one organization, an empty membership list, one
project and one project alert. -/
def alertSnapshot : ImportInput :=
  ⟨some ⟨some "1.0", none⟩,
   some ⟨none, some [snapOrg], some [], none, some [snapProject], none,
         none, none, none, none,
         some [⟨some "web", some "High volume", some 60, some 100, some false⟩],
         none, none⟩⟩

def alertRun1 : RunResult := import_all alertSnapshot (mkImporter false emptyStore)

def alertRun2 : RunResult :=
  import_all alertSnapshot (mkImporter false alertRun1.state.store)

/-- C1: importing `alertSnapshot` twice (Apply mode) into the same
store creates a second `ProjectAlert` sharing the first one's natural
key (project 2, name "High volume"): `import_alerts` has no existence
check, so a pre-existing alert is not reused and the second run does
not create zero new entities.  No error is reported on either run. -/
theorem c1_alert_reimport_duplicates :
    alertRun1.state.store.alerts.map (fun a => (a.projectId, a.name)) =
      [(2, "High volume")] ∧
    alertRun2.state.store.alerts.map (fun a => (a.projectId, a.name)) =
      [(2, "High volume"), (2, "High volume")] ∧
    alertRun1.state.stats.errors = [] ∧
    alertRun2.state.stats.errors = [] :=
  ⟨rfl, rfl, rfl, rfl⟩

/-- A snapshot with one user, one organization and one membership. -/
def membershipSnapshot : ImportInput :=
  ⟨some ⟨some "1.0", none⟩,
   some ⟨some [snapUser], some [snapOrg], some [snapMembership], none,
         none, none, none, none, none, none, none, none, none⟩⟩

/-- C2: against the same empty target store, Apply mode imports
`membershipSnapshot` with no errors (and creates the membership), while
DryRun mode reports a spurious resolution error for the same record:
dry-run never populates `slug_to_org` / `email_to_user`, so the two
modes do not traverse identical resolution logic and report different
error sets. -/
theorem c2_dryrun_apply_error_sets_differ :
    (import_all membershipSnapshot (mkImporter false emptyStore)).state.stats.errors = [] ∧
    (import_all membershipSnapshot (mkImporter true emptyStore)).state.stats.errors =
      ["ERROR: 组织不存在: acme"] ∧
    (import_all membershipSnapshot (mkImporter false emptyStore)).state.store.orgUsers.length = 1 :=
  ⟨rfl, rfl, rfl⟩

/-- A snapshot whose `metadata.version` is an unsupported `"999.0"`. -/
def unsupportedVersionDoc : ImportInput :=
  ⟨some ⟨some "999.0", some "2099-01-01T00:00:00"⟩,
   some ⟨some [snapUser], none, none, none, none, none, none, none, none,
         none, none, none, none⟩⟩

/-- C3 counterexample: a document carrying version "999.0" is imported
without any fatal error — the run succeeds and mutates the store (the
user is created), so no version validation happens before mutation. -/
theorem c3_unsupported_version_imported :
    mainImport unsupportedVersionDoc false emptyStore =
      some (import_all unsupportedVersionDoc (mkImporter false emptyStore)) ∧
    (import_all unsupportedVersionDoc (mkImporter false emptyStore)).success = true ∧
    (import_all unsupportedVersionDoc (mkImporter false emptyStore)).state.store.users.map
      (fun u => u.email) = ["a@x.com"] ∧
    (import_all unsupportedVersionDoc (mkImporter false emptyStore)).state.stats.errors = [] :=
  ⟨rfl, rfl, rfl, rfl⟩

/-- C3 amended: the importer never consults `metadata.version` — the
whole run is invariant under replacing the metadata — and the only
pre-import validation is `main`'s presence check of the `data` key,
which exits (fatally, before any mutation) when it is absent. -/
theorem c3_version_never_checked :
    (∀ (m1 m2 : Option Metadata) (d : Option DataSec) (st : ImpState),
       import_all ⟨m1, d⟩ st = import_all ⟨m2, d⟩ st) ∧
    (∀ (m : Option Metadata) (dr : Bool) (s : Store),
       mainImport ⟨m, none⟩ dr s = none) :=
  ⟨fun _ _ _ _ => rfl, fun _ _ _ => rfl⟩

/-- C4: `serialize_model` encodes a foreign-key field as the referenced
row's store-assigned numeric primary key (`value.pk`), not as a natural
key: a membership row whose `organization` points at the org with pk 7
exports `("organization", 7)`, and `serializeField` maps any related
object to its pk. -/
theorem c4_fk_encoded_as_pk :
    serialize_model (orgUserFields ⟨3, some 5, 7, 0, "a@x.com"⟩) [] =
      [("id", .pInt 3), ("user", .pInt 5), ("organization", .pInt 7),
       ("role", .pInt 0), ("email", .pStr "a@x.com")] ∧
    serializeField (.fvRelated 7) = .pInt 7 :=
  ⟨rfl, rfl⟩

/-- A snapshot whose team references a member email and a project slug
that resolve to nothing. -/
def ghostTeamSnapshot : ImportInput :=
  ⟨some ⟨some "1.0", none⟩,
   some ⟨some [snapUser], some [snapOrg], some [], none, none, none, none,
         some [⟨"t1", some "acme", some ["ghost@x.com"], some ["nope"]⟩],
         none, none, none, none, none⟩⟩

/-- C6 counterexample: importing `ghostTeamSnapshot` (Apply mode, empty
store) drops the unresolvable member email `ghost@x.com` and the
unresolvable project slug `nope` with NO report entry at all — the
error list stays empty, the team is created with no members and no
projects, and the run reports success. -/
theorem c6_silent_member_drop :
    (import_all ghostTeamSnapshot (mkImporter false emptyStore)).state.stats.errors = [] ∧
    (import_all ghostTeamSnapshot (mkImporter false emptyStore)).state.store.teams.map
      (fun t => (t.slug, t.memberIds, t.projectIds)) = [("t1", [], [])] ∧
    (import_all ghostTeamSnapshot (mkImporter false emptyStore)).success = true :=
  ⟨rfl, rfl, rfl⟩

/-- C6 amended: an unresolvable record-level reference (a team's
organization slug) records a per-record error and skips exactly that
record, the loop continuing with the rest; but unresolvable team member
emails and team project slugs are silently skipped — a team record
whose organization resolves never adds to the error list, whatever its
member/project references. -/
theorem c6_unresolvable_refs_amended :
    (∀ (st : ImpState) (r : TeamRec),
       dmem st.slugToOrg (r.organization_slug.getD "") = false →
       importOneTeam st r = logError st
         ("团队 " ++ r.slug ++ " 的组织 " ++ r.organization_slug.getD ""
           ++ " 不存在")) ∧
    (∀ (st : ImpState) (r : TeamRec),
       dmem st.slugToOrg (r.organization_slug.getD "") = true →
       (importOneTeam st r).stats.errors = st.stats.errors) ∧
    (∀ (st : ImpState) (r : TeamRec) (rest : List TeamRec),
       import_teams (r :: rest) st = import_teams rest (importOneTeam st r)) := by
  refine ⟨?_, ?_, ?_⟩
  · intro st r h
    simp [importOneTeam, h]
  · intro st r h
    simp only [importOneTeam, h, not_true_eq_false, if_false]
    split <;> rfl
  · intro st r rest
    rfl

/-- An importer state whose resolver already knows organization
`acme`. -/
def acmeKnownState : ImpState :=
  { mkImporter false emptyStore with slugToOrg := [("acme", 1)] }

/-- Witness for C6 amended at concrete inputs: an unknown organization
slug yields exactly one logged error; a resolvable one with a ghost
member email leaves the error list unchanged; the fold continues. -/
theorem c6_unresolvable_refs_amended_witness :
    importOneTeam (mkImporter false emptyStore) ⟨"t1", some "acme", none, none⟩ =
      logError (mkImporter false emptyStore)
        ("团队 " ++ "t1" ++ " 的组织 " ++ "acme" ++ " 不存在") ∧
    (importOneTeam acmeKnownState
      ⟨"t1", some "acme", some ["ghost@x.com"], none⟩).stats.errors =
      acmeKnownState.stats.errors ∧
    import_teams [⟨"t1", some "acme", none, none⟩] (mkImporter false emptyStore) =
      import_teams []
        (importOneTeam (mkImporter false emptyStore) ⟨"t1", some "acme", none, none⟩) :=
  ⟨c6_unresolvable_refs_amended.1 (mkImporter false emptyStore)
     ⟨"t1", some "acme", none, none⟩ rfl,
   c6_unresolvable_refs_amended.2.1 acmeKnownState
     ⟨"t1", some "acme", some ["ghost@x.com"], none⟩ rfl,
   c6_unresolvable_refs_amended.2.2 (mkImporter false emptyStore)
     ⟨"t1", some "acme", none, none⟩ []⟩

/-- The spec's §8 scenario snapshot: user, organization, membership,
project. -/
def scenarioSnapshot : ImportInput :=
  ⟨some ⟨some "1.0", none⟩,
   some ⟨some [snapUser], some [snapOrg], some [snapMembership], none,
         some [snapProject], none, none, none, none, none, none, none,
         none⟩⟩

def scenarioRun1 : RunResult :=
  import_all scenarioSnapshot (mkImporter false emptyStore)

def scenarioRun2 : RunResult :=
  import_all scenarioSnapshot (mkImporter false scenarioRun1.state.store)

/-- C7 counterexample: re-importing the identical scenario snapshot
creates nothing (the store is unchanged), yet the report's only
per-type counters still read 1, not 0 — the `import_stats` dict keeps
one conflated count per entity type (incremented for created AND
already-existing records) and has no created / skipped-existing /
skipped-error triple at all. -/
theorem c7_single_counter_report :
    scenarioRun2.state.store = scenarioRun1.state.store ∧
    scenarioRun2.state.stats.users = 1 ∧
    scenarioRun2.state.stats.organizations = 1 ∧
    scenarioRun2.state.stats.projects = 1 ∧
    scenarioRun2.state.stats.errors = [] :=
  ⟨rfl, rfl, rfl, rfl, rfl⟩

theorem importOneUser_users_count (st : ImpState) (u : UserRec) :
    (importOneUser st u).stats.users = st.stats.users + 1 := by
  unfold importOneUser
  dsimp only
  split
  · split <;> rfl
  · rfl

/-- C7 amended: the report keeps a single per-entity-type counter,
incremented once per processed record whether the entity was created or
already existed (shown for users: the counter always advances by the
record count), plus one global error list; re-importing the identical
scenario snapshot therefore reproduces the same stats with zero new
entities, rather than moving counts into a separate
skipped-existing counter. -/
theorem c7_report_counts_amended :
    (∀ (ud : List UserRec) (st : ImpState),
       (import_users ud st).stats.users = st.stats.users + ud.length) ∧
    scenarioRun2.state.stats = scenarioRun1.state.stats ∧
    scenarioRun2.state.store = scenarioRun1.state.store := by
  refine ⟨?_, rfl, rfl⟩
  intro ud
  induction ud with
  | nil => intro st; simp [import_users]
  | cons u us ih =>
    intro st
    have h1 : import_users (u :: us) st = import_users us (importOneUser st u) := rfl
    rw [h1, ih, importOneUser_users_count]
    simp only [List.length_cons]
    omega

/-- C8 counterexample: a DryRun import enters `transaction.atomic()`
exactly as an Apply import does — the atomic block wraps the dry-run
check, so DryRun mode does open a transaction (while still leaving the
store untouched). -/
theorem c8_dryrun_opens_transaction :
    (import_all membershipSnapshot (mkImporter true emptyStore)).txOpened = true ∧
    (import_all membershipSnapshot (mkImporter true emptyStore)).state.store = emptyStore :=
  ⟨rfl, rfl⟩

/-- C8 amended: every `import_all` call — DryRun or Apply — opens the
one transaction; the transaction scope itself is all-or-nothing: if the
wrapped body raises, the target store is rolled back to its state at
entry. -/
theorem c8_transaction_amended :
    (∀ (doc : ImportInput) (st : ImpState),
       (import_all doc st).txOpened = true) ∧
    (∀ (body : ImpState → Except String ImpState) (st : ImpState)
       (e : String), body st = Except.error e →
       (runAtomic body st).1.store = st.store) := by
  constructor
  · intro doc st; rfl
  · intro body st e h
    simp [runAtomic, h]

/-- Witness for C8 amended: the transaction flag at a concrete dry-run
call, and rollback of a concretely failing body. -/
theorem c8_transaction_amended_witness :
    (import_all membershipSnapshot (mkImporter true emptyStore)).txOpened = true ∧
    (runAtomic (fun _ => Except.error "boom")
      (mkImporter false emptyStore)).1.store = emptyStore :=
  ⟨c8_transaction_amended.1 membershipSnapshot (mkImporter true emptyStore),
   c8_transaction_amended.2 (fun _ => Except.error "boom")
     (mkImporter false emptyStore) "boom" rfl⟩

/-- A snapshot with two organizations and two projects that share the
slug `web` across different organizations. -/
def dupSlugSnapshot : ImportInput :=
  ⟨some ⟨some "1.0", none⟩,
   some ⟨none,
         some [⟨"a", "A", none, none, none, none⟩,
               ⟨"b", "B", none, none, none, none⟩],
         some [], none,
         some [⟨"W1", "web", some "a", none, none, none⟩,
               ⟨"W2", "web", some "b", none, none, none⟩],
         none, none, none, none, none, none, none, none⟩⟩

def dupSlugRun : RunResult :=
  import_all dupSlugSnapshot (mkImporter false emptyStore)

/-- C9 counterexample: importing `dupSlugSnapshot` creates two distinct
projects (ids 3 and 4, same slug `web`, different organizations), but
the resolver's `slug_to_project` index ends holding a single entry for
`web`, pointing at the later project — the two projects collide instead
of resolving to distinct handles, and the first project's handle is no
longer reachable through the resolver. -/
theorem c9_resolver_slug_collision :
    dupSlugRun.state.store.projects.map (fun p => (p.id, p.orgId, p.slug)) =
      [(3, 1, "web"), (4, 2, "web")] ∧
    dupSlugRun.state.slugToProject = [("web", ⟨4, 2⟩)] ∧
    dget? dupSlugRun.state.slugToProject "web" = some ⟨4, 2⟩ ∧
    dupSlugRun.state.stats.errors = [] :=
  ⟨rfl, rfl, rfl, rfl⟩

/-- C9 amended: the resolver registers each successfully processed
project under its BARE slug — not under the (organization slug, project
slug) pair: after processing a record (Apply mode, organization
resolvable) the index maps the record's slug to the created-or-found
handle of exactly that record's organization, and leaves every other
slug's entry unchanged — so a later record with the same slug in a
different organization overwrites the earlier handle. -/
theorem c9_resolver_keyed_by_slug_amended :
    ∀ (st : ImpState) (r : ProjectRec) (orgId : Nat),
      st.dryRun = false →
      dget? st.slugToOrg (r.organization_slug.getD "") = some orgId →
      (∃ h : ProjHandle,
         dget? (importOneProject st r).slugToProject r.slug = some h ∧
         h.orgId = orgId) ∧
      (∀ s', s' ≠ r.slug →
         dget? (importOneProject st r).slugToProject s' =
           dget? st.slugToProject s') := by
  intro st r orgId hdr horg
  simp only [importOneProject, horg, hdr, Bool.false_eq_true,
    not_false_eq_true, if_true, incProjects]
  exact ⟨⟨_, dget?_dinsert_self _ _ _, rfl⟩,
         fun s' hs => dget?_dinsert_ne _ _ _ _ hs⟩

/-- An importer state (Apply mode) whose resolver knows organization
`acme` as handle 1. -/
def projWitnessState : ImpState :=
  { mkImporter false emptyStore with slugToOrg := [("acme", 1)] }

/-- Witness for C9 amended at a concrete state and record. -/
theorem c9_resolver_keyed_by_slug_amended_witness :
    (∃ h : ProjHandle,
       dget? (importOneProject projWitnessState snapProject).slugToProject
         "web" = some h ∧ h.orgId = 1) ∧
    dget? (importOneProject projWitnessState snapProject).slugToProject
      "other" = dget? projWitnessState.slugToProject "other" :=
  have hmain := c9_resolver_keyed_by_slug_amended projWitnessState
    snapProject 1 rfl rfl
  ⟨hmain.1, hmain.2 "other" (by decide)⟩

/-! ## Organization-table preservation: only `import_organizations`
ever writes `Store.orgs` -/

theorem foldl_orgs_inv {α : Type} (f : ImpState → α → ImpState)
    (hf : ∀ st a, (f st a).store.orgs = st.store.orgs) :
    ∀ (l : List α) (st : ImpState),
      (l.foldl f st).store.orgs = st.store.orgs := by
  intro l
  induction l with
  | nil => intro st; rfl
  | cons a as ih => intro st; rw [List.foldl_cons, ih, hf]

theorem foldl_store_orgs_inv {α : Type} (f : Store → α → Store)
    (hf : ∀ s a, (f s a).orgs = s.orgs) :
    ∀ (l : List α) (s : Store), (l.foldl f s).orgs = s.orgs := by
  intro l
  induction l with
  | nil => intro s; rfl
  | cons a as ih => intro s; rw [List.foldl_cons, ih, hf]

theorem importOneUser_orgs (st : ImpState) (u : UserRec) :
    (importOneUser st u).store.orgs = st.store.orgs := by
  unfold importOneUser
  dsimp only
  split
  · split <;> rfl
  · rfl

theorem importOneProject_orgs (st : ImpState) (r : ProjectRec) :
    (importOneProject st r).store.orgs = st.store.orgs := by
  unfold importOneProject
  dsimp only
  split
  · rfl
  · split
    · split <;> rfl
    · rfl

theorem importOneKey_orgs (st : ImpState) (r : KeyRec) :
    (importOneKey st r).store.orgs = st.store.orgs := by
  unfold importOneKey
  dsimp only
  split
  · rfl
  · split
    · split <;> rfl
    · rfl

theorem importOneCounter_orgs (st : ImpState) (r : CounterRec) :
    (importOneCounter st r).store.orgs = st.store.orgs := by
  unfold importOneCounter
  dsimp only
  split
  · rfl
  · split
    · split <;> rfl
    · rfl

theorem importOneTeam_orgs (st : ImpState) (r : TeamRec) :
    (importOneTeam st r).store.orgs = st.store.orgs := by
  unfold importOneTeam
  dsimp only
  split
  · rfl
  · split
    · show (incTeams _).store.orgs = st.store.orgs
      unfold incTeams
      dsimp only
      rw [foldl_store_orgs_inv _ (fun s a => by split <;> rfl)]
      rw [foldl_store_orgs_inv _ (fun s a => by split <;> (try split) <;> rfl)]
      split <;> rfl
    · rfl

theorem importOneAlert_orgs (st : ImpState) (r : AlertRec) :
    (importOneAlert st r).store.orgs = st.store.orgs := by
  unfold importOneAlert
  dsimp only
  split
  · rfl
  · split <;> rfl

theorem importOneEnv_orgs (st : ImpState) (r : EnvRec) :
    (importOneEnv st r).store.orgs = st.store.orgs := by
  unfold importOneEnv
  dsimp only
  split
  · rfl
  · split
    · split <;> rfl
    · rfl

theorem importOneEnvProj_orgs (st : ImpState) (r : EnvProjRec) :
    (importOneEnvProj st r).store.orgs = st.store.orgs := by
  unfold importOneEnvProj
  dsimp only
  split
  · rfl
  · split
    · rfl
    · split
      · split <;> rfl
      · rfl

theorem importOneToken_orgs (st : ImpState) (r : TokenRec) :
    (importOneToken st r).store.orgs = st.store.orgs := by
  unfold importOneToken
  dsimp only
  split
  · rfl
  · split
    · split <;> rfl
    · rfl

theorem import_users_orgs (ud : List UserRec) (st : ImpState) :
    (import_users ud st).store.orgs = st.store.orgs :=
  foldl_orgs_inv importOneUser importOneUser_orgs ud st

theorem import_projects_orgs (ps : List ProjectRec) (ks : List KeyRec)
    (cs : List CounterRec) (st : ImpState) :
    (import_projects ps ks cs st).store.orgs = st.store.orgs := by
  unfold import_projects
  rw [foldl_orgs_inv importOneCounter importOneCounter_orgs,
      foldl_orgs_inv importOneKey importOneKey_orgs,
      foldl_orgs_inv importOneProject importOneProject_orgs]

theorem import_teams_orgs (ts : List TeamRec) (st : ImpState) :
    (import_teams ts st).store.orgs = st.store.orgs :=
  foldl_orgs_inv importOneTeam importOneTeam_orgs ts st

theorem import_alerts_orgs (als : List AlertRec)
    (rs : List RecipientRec) (st : ImpState) :
    (import_alerts als rs st).store.orgs = st.store.orgs := by
  unfold import_alerts
  rw [foldl_orgs_inv (fun s _ => s) (fun _ _ => rfl),
      foldl_orgs_inv importOneAlert importOneAlert_orgs]

theorem import_environments_orgs (es : List EnvRec)
    (eps : List EnvProjRec) (st : ImpState) :
    (import_environments es eps st).store.orgs = st.store.orgs := by
  unfold import_environments
  rw [foldl_orgs_inv importOneEnvProj importOneEnvProj_orgs,
      foldl_orgs_inv importOneEnv importOneEnv_orgs]

theorem import_api_tokens_orgs (tks : List TokenRec) (st : ImpState) :
    (import_api_tokens tks st).store.orgs = st.store.orgs :=
  foldl_orgs_inv importOneToken importOneToken_orgs tks st

/-- C10: organizations (with their memberships) are imported only when
both the `organizations` and the `organization_users` keys are present:
a document whose data section holds only an `organizations` list leaves
the whole importer state untouched — no organization imported, no error
recorded, no count advanced — and, for every document at all lacking
the `organization_users` key, the store's organization table is left
exactly as it was. -/
theorem c10_org_import_gated_on_org_users :
    (∀ (md : Option Metadata) (orgs : List OrgRec) (st : ImpState),
       (import_all ⟨md, some { emptyData with organizations := some orgs }⟩
         st).state = st) ∧
    (∀ (doc : ImportInput) (st : ImpState),
       (doc.data.getD emptyData).organization_users = none →
       (import_all doc st).state.store.orgs = st.store.orgs) := by
  constructor
  · intro md orgs st
    rfl
  · intro doc st h
    show (importBody doc st).store.orgs = st.store.orgs
    rcases doc with ⟨md, data?⟩
    cases data? with
    | none => rfl
    | some d =>
      rcases d with ⟨u, o, ou, ow, p, pk, pc, t, e, ep, pa, ar, atk⟩
      simp only [Option.getD_some] at h
      subst h
      unfold importBody
      simp only [Option.getD_some]
      cases u <;> cases o <;> cases p <;> cases t <;> cases e <;>
        cases pa <;> cases atk <;>
        first
          | rfl
          | simp only [import_users_orgs, import_projects_orgs,
              import_teams_orgs, import_environments_orgs,
              import_alerts_orgs, import_api_tokens_orgs]

/-- A data section with organizations and projects but no
`organization_users` key. -/
def orgsNoMembersData : DataSec :=
  { emptyData with organizations := some [snapOrg],
                   projects := some [snapProject] }

/-- Witness for C10 at concrete inputs: an organizations-only snapshot
is a no-op on the whole importer state, and a snapshot with
organizations and projects (but no `organization_users` key) leaves the
organization table empty. -/
theorem c10_org_import_gated_on_org_users_witness :
    (import_all ⟨some ⟨some "1.0", none⟩,
        some { emptyData with organizations := some [snapOrg] }⟩
      (mkImporter false emptyStore)).state = mkImporter false emptyStore ∧
    (import_all ⟨some ⟨some "1.0", none⟩, some orgsNoMembersData⟩
      (mkImporter false emptyStore)).state.store.orgs = emptyStore.orgs :=
  ⟨c10_org_import_gated_on_org_users.1 (some ⟨some "1.0", none⟩) [snapOrg]
     (mkImporter false emptyStore),
   c10_org_import_gated_on_org_users.2
     ⟨some ⟨some "1.0", none⟩, some orgsNoMembersData⟩
     (mkImporter false emptyStore) rfl⟩
